import Mathlib

/-!
Verification development for the financial-dashboard repository
(single source file `app.py`).

The numeric domain of pandas float Series is idealized as `FV`:
a finite rational, positive/negative infinity, or NaN.  NaN is the
in-band "absent" marker that pandas uses for unfilled rolling windows
and undefined differences; the IEEE propagation rules that this program
can actually hit (NaN propagation, division by zero, finite/infinity)
are modelled exactly, while rounding of finite values is idealized to
exact rational arithmetic.

The square root used by `rolling(20).std()` has no exact rational
counterpart, so the Bollinger-band computation is parametrized by an
arbitrary function `sqrtQ : ℚ → ℚ`; every theorem below quantifies over
it, hence holds in particular for the real square root.
-/

set_option autoImplicit false

namespace FinDash

/-- Idealized pandas float value: finite rational, ±∞, or NaN. -/
inductive FV where
  | fin (q : ℚ)
  | pinf
  | ninf
  | nan
deriving DecidableEq, Repr

namespace FV

/-- IEEE negation. -/
def neg : FV → FV
  | fin q => fin (-q)
  | pinf => ninf
  | ninf => pinf
  | nan => nan

/-- IEEE addition (∞ + (−∞) = NaN; NaN propagates). -/
def add : FV → FV → FV
  | nan, _ => nan
  | _, nan => nan
  | fin a, fin b => fin (a + b)
  | fin _, pinf => pinf
  | fin _, ninf => ninf
  | pinf, fin _ => pinf
  | ninf, fin _ => ninf
  | pinf, pinf => pinf
  | ninf, ninf => ninf
  | pinf, ninf => nan
  | ninf, pinf => nan

/-- IEEE subtraction. -/
def sub (a b : FV) : FV := add a (neg b)

/-- IEEE multiplication (∞ · 0 = NaN; NaN propagates). -/
def mul : FV → FV → FV
  | nan, _ => nan
  | _, nan => nan
  | fin a, fin b => fin (a * b)
  | pinf, fin b => if 0 < b then pinf else if b < 0 then ninf else nan
  | ninf, fin b => if 0 < b then ninf else if b < 0 then pinf else nan
  | fin a, pinf => if 0 < a then pinf else if a < 0 then ninf else nan
  | fin a, ninf => if 0 < a then ninf else if a < 0 then pinf else nan
  | pinf, pinf => pinf
  | ninf, ninf => pinf
  | pinf, ninf => ninf
  | ninf, pinf => ninf

/-- IEEE division: finite/0 is a signed infinity (0/0 is NaN),
finite/∞ is 0, ∞/∞ is NaN; NaN propagates.  Signed zero is not
modelled (the program never divides by a negative zero). -/
def div : FV → FV → FV
  | nan, _ => nan
  | _, nan => nan
  | fin a, fin b =>
      if b = 0 then (if a = 0 then nan else if 0 < a then pinf else ninf)
      else fin (a / b)
  | fin _, pinf => fin 0
  | fin _, ninf => fin 0
  | pinf, fin b => if b < 0 then ninf else pinf
  | ninf, fin b => if b < 0 then pinf else ninf
  | pinf, pinf => nan
  | pinf, ninf => nan
  | ninf, pinf => nan
  | ninf, ninf => nan

/-- IEEE strict greater-than: any comparison with NaN is false. -/
def gt : FV → FV → Bool
  | nan, _ => false
  | _, nan => false
  | fin a, fin b => decide (b < a)
  | pinf, pinf => false
  | pinf, _ => true
  | ninf, _ => false
  | fin _, pinf => false
  | fin _, ninf => true

/-- IEEE strict less-than: any comparison with NaN is false. -/
def lt (a b : FV) : Bool := gt b a

/-- IEEE greater-or-equal: any comparison with NaN is false. -/
def ge : FV → FV → Bool
  | nan, _ => false
  | _, nan => false
  | fin a, fin b => decide (b ≤ a)
  | pinf, _ => true
  | ninf, ninf => true
  | ninf, _ => false
  | fin _, pinf => false
  | fin _, ninf => true

/-- A value is finite (a well-defined number, not ±∞ or NaN). -/
def isFin : FV → Bool
  | fin _ => true
  | _ => false

/-- Sum of a list of values with IEEE propagation. -/
def sum (l : List FV) : FV := l.foldr add (fin 0)

end FV

/-! ## Series primitives (pandas `Series` operations used by `app.py`) -/

/-- Extract the rationals of an all-finite list; `none` if any entry is
non-finite (a NaN-poisoned rolling window). -/
def allFin : List FV → Option (List ℚ)
  | [] => some []
  | FV.fin q :: rest => (allFin rest).map (q :: ·)
  | FV.pinf :: _ => none
  | FV.ninf :: _ => none
  | FV.nan :: _ => none

/-- The trailing window of length `w` ending at index `i` (requires
`w ≤ i + 1`; the list of elements at indices `i+1-w … i`). -/
def window {α : Type} (w i : ℕ) (xs : List α) : List α :=
  (xs.take (i + 1)).drop (i + 1 - w)

/-- pandas `Series.rolling(window=w).f()` with the default
`min_periods = w`: NaN for the first `w − 1` positions, and `f` applied
to the trailing window otherwise (NaN if the window itself contains a
non-finite value, as pandas then sees fewer than `w` valid points). -/
def rollingApply (w : ℕ) (f : List ℚ → ℚ) (xs : List FV) : List FV :=
  (List.range xs.length).map (fun i =>
    if i + 1 < w then FV.nan
    else
      match allFin (window w i xs) with
      | some qs => FV.fin (f qs)
      | none => FV.nan)

/-- pandas `rolling(window=w).mean()`: the window sum divided by `w`. -/
def rollingMean (w : ℕ) (xs : List FV) : List FV :=
  rollingApply w (fun qs => qs.sum / (w : ℚ)) xs

/-- Sample variance (pandas default `ddof = 1`) of a window. -/
def sampleVar (qs : List ℚ) : ℚ :=
  let m := qs.sum / (qs.length : ℚ)
  (qs.map (fun x => (x - m) ^ 2)).sum / ((qs.length : ℚ) - 1)

/-- pandas `rolling(window=w).std()`, parametrized by the square-root
function on rationals (exact rational arithmetic has no square root;
all theorems quantify over `sqrtQ`). -/
def rollingStd (sqrtQ : ℚ → ℚ) (w : ℕ) (xs : List FV) : List FV :=
  rollingApply w (fun qs => sqrtQ (sampleVar qs)) xs

/-- Recursive step of pandas `ewm(span, adjust=False).mean()`:
y_t = (1 − α)·y_{t−1} + α·x_t. -/
def ewmFrom (a : ℚ) (y : ℚ) : List ℚ → List ℚ
  | [] => []
  | x :: xs =>
      let y2 := (1 - a) * y + a * x
      y2 :: ewmFrom a y2 xs

/-- pandas `ewm(span=s, adjust=False).mean()` on a NaN-free Series:
α = 2/(s+1), y_0 = x_0.  Every call site in `app.py` applies it to a
NaN-free column (Close, MACD). -/
def ewmSpan (s : ℕ) : List ℚ → List ℚ
  | [] => []
  | x :: xs => x :: ewmFrom (2 / ((s : ℚ) + 1)) x xs

/-- pandas `Series.diff()`: NaN at index 0, first differences after. -/
def diffQ : List ℚ → List FV
  | [] => []
  | x :: xs => FV.nan :: List.zipWith (fun a b => FV.fin (a - b)) xs (x :: xs)

/-! ## The data frame

The canonical OHLCV table produced by ingestion: the base columns are
record fields (always present after a successful fetch, per the spec's
canonical-Series invariant: prices are finite rationals), and derived
indicator columns are a name-indexed list, in insertion order, of
pandas float Series modelled as `List FV`. -/

structure DataFrame where
  dateCol : List ℤ
  openCol : List ℚ
  highCol : List ℚ
  lowCol : List ℚ
  closeCol : List ℚ
  volumeCol : List ℚ
  extra : List (String × List FV)
deriving DecidableEq, Repr

namespace DataFrame

/-- Number of rows of the table. -/
def nrows (df : DataFrame) : ℕ := df.closeCol.length

/-- pandas `df.empty` (zero rows). -/
def isEmpty (df : DataFrame) : Bool := decide (df.nrows = 0)

/-- Read a derived column (`df['name']` for an indicator column);
`none` when the column does not exist. -/
def getCol (df : DataFrame) (name : String) : Option (List FV) :=
  (df.extra.find? (fun p => p.1 == name)).map (·.2)

/-- pandas column assignment `df['name'] = v`: replace the column if
present, append it otherwise. -/
def setCol (df : DataFrame) (name : String) (v : List FV) : DataFrame :=
  if df.extra.any (fun p => p.1 == name) then
    { df with extra := df.extra.map (fun p => if p.1 == name then (name, v) else p) }
  else
    { df with extra := df.extra ++ [(name, v)] }

end DataFrame

/-! ## Indicator columns (`calculate_technical_indicators`, app.py 173–203)

Each derived column is a standalone definition translating the
corresponding assignment line; `calculate_technical_indicators`
assembles them in source order. -/

/-- `df['Close'].rolling(window=20).mean()` (app.py:179). -/
def sma_20 (close : List ℚ) : List FV := rollingMean 20 (close.map FV.fin)

/-- `df['Close'].rolling(window=50).mean()` (app.py:180). -/
def sma_50 (close : List ℚ) : List FV := rollingMean 50 (close.map FV.fin)

/-- `df['Close'].ewm(span=12, adjust=False).mean()` (app.py:182). -/
def ema_12 (close : List ℚ) : List ℚ := ewmSpan 12 close

/-- `df['Close'].ewm(span=26, adjust=False).mean()` (app.py:183). -/
def ema_26 (close : List ℚ) : List ℚ := ewmSpan 26 close

/-- `df['MACD'] = df['EMA_12'] - df['EMA_26']` (app.py:186). -/
def macdQ (close : List ℚ) : List ℚ :=
  List.zipWith (fun a b => a - b) (ema_12 close) (ema_26 close)

/-- `df['MACD'].ewm(span=9, adjust=False).mean()` (app.py:187). -/
def macd_signal (close : List ℚ) : List ℚ := ewmSpan 9 (macdQ close)

/-- `df['MACD'] - df['MACD_Signal']` (app.py:188). -/
def macd_histogram (close : List ℚ) : List ℚ :=
  List.zipWith (fun a b => a - b) (macdQ close) (macd_signal close)

/-- `(delta.where(delta > 0, 0)).rolling(window=14).mean()`
(app.py:191–192): a NaN difference compares false, so it is replaced
by 0 before the rolling mean. -/
def gainMean (close : List ℚ) : List FV :=
  rollingMean 14
    ((diffQ close).map (fun d => if FV.gt d (FV.fin 0) then d else FV.fin 0))

/-- `(-delta.where(delta < 0, 0)).rolling(window=14).mean()`
(app.py:193). -/
def lossMean (close : List ℚ) : List FV :=
  rollingMean 14
    (((diffQ close).map (fun d => if FV.lt d (FV.fin 0) then d else FV.fin 0)).map FV.neg)

/-- `rs = gain / loss` (app.py:194), elementwise IEEE division. -/
def rsSeries (close : List ℚ) : List FV :=
  List.zipWith FV.div (gainMean close) (lossMean close)

/-- `df['RSI'] = 100 - (100 / (1 + rs))` (app.py:195). -/
def rsiSeries (close : List ℚ) : List FV :=
  (rsSeries close).map
    (fun r => FV.sub (FV.fin 100) (FV.div (FV.fin 100) (FV.add (FV.fin 1) r)))

/-- `df['BB_Middle'] = df['Close'].rolling(window=20).mean()`
(app.py:198). -/
def bb_middle (close : List ℚ) : List FV := rollingMean 20 (close.map FV.fin)

/-- `bb_std = df['Close'].rolling(window=20).std()` (app.py:199). -/
def bb_stdSeries (sqrtQ : ℚ → ℚ) (close : List ℚ) : List FV :=
  rollingStd sqrtQ 20 (close.map FV.fin)

/-- `df['BB_Upper'] = df['BB_Middle'] + (bb_std * 2)` (app.py:200). -/
def bb_upper (sqrtQ : ℚ → ℚ) (close : List ℚ) : List FV :=
  List.zipWith FV.add (bb_middle close)
    ((bb_stdSeries sqrtQ close).map (fun s => FV.mul s (FV.fin 2)))

/-- `df['BB_Lower'] = df['BB_Middle'] - (bb_std * 2)` (app.py:201). -/
def bb_lower (sqrtQ : ℚ → ℚ) (close : List ℚ) : List FV :=
  List.zipWith FV.sub (bb_middle close)
    ((bb_stdSeries sqrtQ close).map (fun s => FV.mul s (FV.fin 2)))

/-- The column-assignment body of `calculate_technical_indicators`
(app.py:179–201): the eleven derived columns assigned in source order
on the same table. -/
def addIndicatorColumns (sqrtQ : ℚ → ℚ) (df : DataFrame) : DataFrame :=
  let c := df.closeCol
  (((((((((((df.setCol "SMA_20" (sma_20 c)).setCol "SMA_50"
    (sma_50 c)).setCol "EMA_12" ((ema_12 c).map FV.fin)).setCol "EMA_26"
    ((ema_26 c).map FV.fin)).setCol "MACD" ((macdQ c).map FV.fin)).setCol
    "MACD_Signal" ((macd_signal c).map FV.fin)).setCol "MACD_Histogram"
    ((macd_histogram c).map FV.fin)).setCol "RSI" (rsiSeries c)).setCol
    "BB_Middle" (bb_middle c)).setCol "BB_Upper" (bb_upper sqrtQ c)).setCol
    "BB_Lower" (bb_lower sqrtQ c))

/-- `calculate_technical_indicators(df)` (app.py:173–203): returns the
input unchanged when it is `None` or empty, and otherwise assigns the
eleven derived columns. -/
def calculate_technical_indicators (sqrtQ : ℚ → ℚ) (df : Option DataFrame) :
    Option DataFrame :=
  match df with
  | none => none
  | some df =>
    if df.isEmpty then some df else some (addIndicatorColumns sqrtQ df)

/-! ## Themes and chart composition (app.py 142–167, 209–399, 573–599)

Only the drawn data and the style attributes that the claims mention are
modelled: each panel is a list of glyphs (numeric arrays plus their
colors) together with the theme-resolved style colors and an optional
fixed y-range.  Fonts, widths, tool and legend attributes carry no
claim-relevant content and are omitted.  The price `Span`/`Label`
annotation of the main chart repeats the last Close value and is
likewise omitted. -/

structure ThemeColors where
  bg : String
  text : String
  grid : String
  up : String
  down : String
  widgetBg : String
deriving DecidableEq, Repr

/-- The `THEME_COLORS` dictionary (app.py:142–167). -/
def THEME_COLORS (name : String) : Option ThemeColors :=
  if name = "light" then
    some { bg := "#ffffff", text := "#2c3e50", grid := "#f0f0f0",
           up := "#2ecc71", down := "#e74c3c", widgetBg := "#f8f9fa" }
  else if name = "dark" then
    some { bg := "#1a1a2e", text := "#e0e0e0", grid := "#2d3047",
           up := "#27ae60", down := "#c0392b", widgetBg := "#2d3047" }
  else if name = "terminal" then
    some { bg := "#0c0c0c", text := "#00ff00", grid := "#003300",
           up := "#00ff00", down := "#ff0000", widgetBg := "#1a1a1a" }
  else none

/-- `THEME_COLORS.get(theme, THEME_COLORS["light"])`. -/
def themeColorsGet (theme : String) : ThemeColors :=
  (THEME_COLORS theme).getD
    { bg := "#ffffff", text := "#2c3e50", grid := "#f0f0f0",
      up := "#2ecc71", down := "#e74c3c", widgetBg := "#f8f9fa" }

/-- A drawn glyph: its numeric arrays and its color styling. -/
inductive Glyph where
  | line (x : List ℤ) (y : List FV) (color : String)
  | vbar (x : List ℤ) (top : List FV) (colors : List String)
  | patch (x : List ℤ) (y : List FV) (color : String)
deriving DecidableEq, Repr

/-- The numeric content of a glyph, styling stripped. -/
def glyphData : Glyph → List ℤ × List FV
  | Glyph.line x y _ => (x, y)
  | Glyph.vbar x top _ => (x, top)
  | Glyph.patch x y _ => (x, y)

structure Panel where
  glyphs : List Glyph
  bg : String
  textColor : String
  yRange : Option (ℚ × ℚ)
deriving DecidableEq, Repr

/-- A derived column drawn by a chart; `create_main_chart` is only
invoked after the indicator pass, when the column exists. -/
def drawnCol (df : DataFrame) (name : String) : List FV :=
  (df.getCol name).getD []

/-- `create_main_chart(df, indicators, theme)` (app.py:209–306): the
Close line (theme-dependent color), plus SMA-20/EMA-12 overlay lines
when `'SMA/EMA'` is selected, plus the Bollinger patch and bound lines
when `'Bollinger Bands'` is selected and the columns exist. -/
def create_main_chart (df : DataFrame) (indicators : List String)
    (theme : String) : Panel :=
  let colors := themeColorsGet theme
  let priceColor :=
    if theme = "light" ∨ theme = "terminal" then "#2E86AB" else "#4ECDC4"
  let closeGlyphs := [Glyph.line df.dateCol (df.closeCol.map FV.fin) priceColor]
  let smaGlyphs :=
    if "SMA/EMA" ∈ indicators then
      [Glyph.line df.dateCol (drawnCol df "SMA_20") "#FF6B6B",
       Glyph.line df.dateCol (drawnCol df "EMA_12") "#F18F01"]
    else []
  let bbGlyphs :=
    if "Bollinger Bands" ∈ indicators ∧
        ((df.getCol "BB_Upper").isSome ∧ (df.getCol "BB_Lower").isSome) then
      [Glyph.patch (df.dateCol ++ df.dateCol.reverse)
         (drawnCol df "BB_Upper" ++ (drawnCol df "BB_Lower").reverse) "#2E86AB",
       Glyph.line df.dateCol (drawnCol df "BB_Upper") "#2E86AB",
       Glyph.line df.dateCol (drawnCol df "BB_Lower") "#2E86AB"]
    else []
  { glyphs := closeGlyphs ++ smaGlyphs ++ bbGlyphs,
    bg := colors.bg, textColor := colors.text, yRange := none }

/-- `create_volume_chart(df, theme)` (app.py:308–345): one bar per row,
colored by the theme's up/down role (`Close >= Open`).  The source also
writes this per-bar color list into the table as a `'Color'` column;
that presentational column lives here inside the glyph. -/
def create_volume_chart (df : DataFrame) (theme : String) : Panel :=
  let colors := themeColorsGet theme
  let barColors :=
    List.zipWith (fun cl op => if op ≤ cl then colors.up else colors.down)
      df.closeCol df.openCol
  { glyphs := [Glyph.vbar df.dateCol (df.volumeCol.map FV.fin) barColors],
    bg := colors.bg, textColor := colors.text, yRange := none }

/-- `create_technical_chart(df, indicator_type, theme)`
(app.py:347–399): the RSI panel (value axis fixed to [0,100], dashed
reference lines at 70 and 30) or the MACD panel (MACD line, signal
line, histogram bars colored by sign), or an empty labelled panel. -/
def create_technical_chart (df : DataFrame) (indicatorType : String)
    (theme : String) : Panel :=
  let colors := themeColorsGet theme
  if indicatorType = "RSI" ∧ (df.getCol "RSI").isSome then
    { glyphs := [Glyph.line df.dateCol (drawnCol df "RSI") "#9b59b6",
        Glyph.line df.dateCol (List.replicate df.nrows (FV.fin 70)) "red",
        Glyph.line df.dateCol (List.replicate df.nrows (FV.fin 30)) "green"],
      bg := colors.bg, textColor := colors.text, yRange := some (0, 100) }
  else if indicatorType = "MACD" ∧
      ((df.getCol "MACD").isSome ∧ (df.getCol "MACD_Signal").isSome ∧
        (df.getCol "MACD_Histogram").isSome) then
    { glyphs := [Glyph.line df.dateCol (drawnCol df "MACD") "#3498db",
        Glyph.line df.dateCol (drawnCol df "MACD_Signal") "#e74c3c",
        Glyph.vbar df.dateCol (drawnCol df "MACD_Histogram")
          ((drawnCol df "MACD_Histogram").map
            (fun v => if FV.ge v (FV.fin 0) then "#2ecc71" else "#e74c3c"))],
      bg := colors.bg, textColor := colors.text, yRange := none }
  else
    { glyphs := [], bg := colors.bg, textColor := colors.text, yRange := none }

/-- The ordered panel list assembled by `create_dashboard`
(app.py:573–599): main chart, volume chart, then one sub-chart per
selected oscillator. -/
def dashboardPanels (df : DataFrame) (activeLabels : List String)
    (theme : String) : List Panel :=
  [create_main_chart df activeLabels theme, create_volume_chart df theme]
    ++ (if "RSI" ∈ activeLabels then [create_technical_chart df "RSI" theme]
        else [])
    ++ (if "MACD" ∈ activeLabels then [create_technical_chart df "MACD" theme]
        else [])

/-! ## Application state and handlers (app.py 453–694)

The UI widgets that the claims touch are modelled as explicit state:
the status log, the dashboard container's children, and the cached
last-analysis data.  Wall-clock time enters `update_status` and
`export_to_csv` as a parameter; the remote fetch enters
`analyze_stock` as an `Except` parameter (zero rows are a returned
empty frame; any raised error is the `error` case, absorbed by the
handler's `except` clause). -/

/-- Python `str.strip()`: drop leading and trailing whitespace. -/
def pyStrip (s : String) : String :=
  ⟨((s.data.dropWhile Char.isWhitespace).reverse.dropWhile
      Char.isWhitespace).reverse⟩

/-- Python `str.upper()` (ASCII tickers): uppercase every character. -/
def pyUpper (s : String) : String := ⟨s.data.map Char.toUpper⟩

structure AppState where
  tickerInput : String
  activeLabels : List String
  themeName : String
  statusLines : List String
  statusBorder : String
  dashboardChildren : List Panel
  currentTicker : String
  currentData : Option DataFrame
deriving DecidableEq, Repr

/-- `update_status(message, level)` (app.py:499–530): append a
timestamped line, keep at most the last 8 lines, and recolor the panel
border on error/success. -/
def update_status (s : AppState) (ts message level : String) : AppState :=
  let lines :=
    if 8 < s.statusLines.length then
      s.statusLines.drop (s.statusLines.length - 7)
    else s.statusLines
  let border :=
    if level = "error" then "#dc3545"
    else if level = "success" then "#28a745"
    else s.statusBorder
  { s with statusLines := lines ++ ["[" ++ ts ++ "] " ++ message],
           statusBorder := border }

/-! ## Statistics summary (`update_stats_display`, app.py 601–678)

The function computes the guard and the percent change, then builds
one large f-string (app.py:616–654).  The replacement field at
app.py:651 reads

  latest.get(\x27RSI\x27, \x27N/A\x27):.1f if isinstance(...) else \x27N/A\x27

where everything after the colon sits in the format-spec position, so
Python passes that conditional-expression text to `format` as a
literal spec — which is not a valid format spec.  The call therefore
raises ValueError on every non-empty frame, before the classification
branch at app.py:656–665 runs and before `stats_display.text` is
assigned; `analyze_stock`'s `except` clause absorbs the exception. -/

/-- Percent price change (app.py:609–612): latest versus previous
Close when there are at least two rows, else 0.  This runs — and is
bound to the local `price_change` — before the f-string raises. -/
def priceChangePct (close : List ℚ) : ℚ :=
  if 1 < close.length then
    ((close.getD (close.length - 1) 0 - close.getD (close.length - 2) 0)
      / close.getD (close.length - 2) 0) * 100
  else 0

/-- `latest.get('RSI')` (app.py:651 and 656): the last row's value of a
derived column; Python `None` (here `none`) when the column does not
exist, and the in-band value — possibly NaN — when it does. -/
def latestGet (df : DataFrame) (name : String) : Option FV :=
  (df.getCol name).bind (fun col => col[df.nrows - 1]?)

/-- The RSI classification branch (app.py:656–665).  `isinstance(x,
(int, float))` is true for every pandas float including NaN, so any
in-band value takes the numeric branch, where a NaN compares false
against both 70 and 30 and therefore lands on "Neutral"; only a
missing value (Python `None`) yields "N/A".  In this program the
branch is dead code: the f-string at app.py:651 raises first (see
`update_stats_display`). -/
def rsi_classification (rsiValue : Option FV) : String :=
  match rsiValue with
  | some v =>
      if FV.gt v (FV.fin 70) then "Overbought"
      else if FV.lt v (FV.fin 30) then "Oversold"
      else "Neutral"
  | none => "N/A"

/-- Alignment characters of the format-spec mini-language. -/
def isAlignChar (c : Char) : Bool :=
  c = '<' ∨ c = '>' ∨ c = '=' ∨ c = '^'

/-- Consume the optional `[[fill]align]` prefix of a format spec. -/
def dropFillAlign : List Char → List Char
  | a :: b :: rest =>
      if isAlignChar b then rest
      else if isAlignChar a then b :: rest
      else a :: b :: rest
  | [a] => if isAlignChar a then [] else [a]
  | [] => []

/-- Consume one optional character satisfying `p`. -/
def dropOne (p : Char → Bool) : List Char → List Char
  | c :: rest => if p c then rest else c :: rest
  | [] => []

/-- Consume the optional `"." precision` part: a dot must be followed
by at least one digit, otherwise the spec is rejected (`none`). -/
def parsePrecision : List Char → Option (List Char)
  | [] => some []
  | c :: rest =>
      if c = '.' then
        match rest with
        | d :: _ =>
            if d.isDigit then some (rest.dropWhile Char.isDigit) else none
        | [] => none
      else some (c :: rest)

/-- Presentation types accepted for floats. -/
def isFloatTypeChar (c : Char) : Bool :=
  c = 'e' ∨ c = 'E' ∨ c = 'f' ∨ c = 'F' ∨ c = 'g' ∨ c = 'G' ∨
    c = 'n' ∨ c = '%'

/-- CPython's format-spec mini-language for float values:
`[[fill]align][sign]["z"]["#"]["0"][width][grouping]["." precision][type]`,
and nothing may remain after the type — trailing text makes `format`
raise `ValueError: Invalid format specifier`. -/
def isFloatFormatSpec (spec : String) : Bool :=
  let cs := dropFillAlign spec.data
  let cs := dropOne (fun c => c = '+' ∨ c = '-' ∨ c = ' ') cs
  let cs := dropOne (fun c => c = 'z') cs
  let cs := dropOne (fun c => c = '#') cs
  let cs := dropOne (fun c => c = '0') cs
  let cs := cs.dropWhile Char.isDigit
  let cs := dropOne (fun c => c = ',' ∨ c = '_') cs
  match parsePrecision cs with
  | none => false
  | some cs2 => (dropOne isFloatTypeChar cs2).isEmpty

/-- The literal format spec of the replacement field at app.py:651:
the whole conditional expression stands after the colon, hence inside
the spec (\x27 is the single-quote character). -/
def rsiFieldSpec : String :=
  ".1f if isinstance(latest.get(\x27RSI\x27), (int, float)) else \x27N/A\x27"

/-- Python `format(value, spec)` as far as this program exercises it:
the call succeeds iff the spec parses; on the invalid spec it raises
ValueError before any value is rendered, so only success/failure is
observable here and the failure is value-independent. -/
def pyFormatCheck (spec : String) : Except String Unit :=
  if isFloatFormatSpec spec then Except.ok ()
  else Except.error "Invalid format specifier"

/-- `update_stats_display(df, ticker)` (app.py:601–678): `none` result
for the silent empty-frame return; otherwise the percent change is
computed (app.py:609–612) and the f-string is evaluated, whose field
at app.py:651 applies the literal spec `rsiFieldSpec` — invalid, so
the function raises there on every non-empty frame.  The `ok` payload
(percent change and the classification of app.py:656–665) is what the
function would go on to display had the spec been valid; with the
program's actual spec that branch is unreachable. -/
def update_stats_display (df : DataFrame) (_ticker : String) :
    Except String (Option (ℚ × String)) :=
  if df.isEmpty then Except.ok none
  else
    let priceChange := priceChangePct df.closeCol
    match pyFormatCheck rsiFieldSpec with
    | Except.error e => Except.error e
    | Except.ok _ =>
        Except.ok (some (priceChange, rsi_classification (latestGet df "RSI")))

/-- `analyze_stock()` (app.py:532–571): validate the ticker, fetch,
bail out with an error status on a raised error or an empty frame
(leaving the dashboard and cache untouched); otherwise compute
indicators, cache them, rebuild the dashboard, then call
`update_stats_display` (app.py:565) — still inside the `try`, so its
exception is absorbed by the same `except` clause into an "Error: …"
status; the dashboard and cache built just before survive.  Only if
the stats call returns does the handler report "Analysis complete". -/
def analyze_stock (sqrtQ : ℚ → ℚ) (fetch : Except String DataFrame)
    (ts : String) (s : AppState) : AppState :=
  let ticker := pyUpper (pyStrip s.tickerInput)
  if ticker = "" then
    update_status s ts "Please enter a valid ticker symbol" "error"
  else
    let s1 := update_status s ts ("Loading data for " ++ ticker ++ "...") "info"
    match fetch with
    | Except.error e => update_status s1 ts ("Error: " ++ e) "error"
    | Except.ok df =>
      if df.isEmpty then
        update_status s1 ts ("No data found for " ++ ticker) "error"
      else
        let df2 := addIndicatorColumns sqrtQ df
        let s2 := { s1 with currentData := some df2, currentTicker := ticker }
        let s3 := { s2 with
          dashboardChildren := dashboardPanels df2 s2.activeLabels s2.themeName }
        match update_stats_display df2 ticker with
        | Except.error e => update_status s3 ts ("Error: " ++ e) "error"
        | Except.ok _ =>
            update_status s3 ts ("Analysis complete for " ++ ticker) "success"

/-! ## Export (`export_to_csv`, app.py 680–684) -/

structure Timestamp where
  y : ℕ
  mo : ℕ
  d : ℕ
  h : ℕ
  mi : ℕ
  sec : ℕ
deriving DecidableEq, Repr

/-- Zero-padded two-digit field of `strftime`. -/
def pad2 (n : ℕ) : String :=
  if n < 10 then "0" ++ toString n else toString n

/-- Zero-padded four-digit year field of `strftime`. -/
def pad4 (n : ℕ) : String :=
  if n < 10 then "000" ++ toString n
  else if n < 100 then "00" ++ toString n
  else if n < 1000 then "0" ++ toString n
  else toString n

/-- `datetime.now().strftime('%Y%m%d_%H%M%S')` (app.py:682). -/
def strftimeYmdHMS (t : Timestamp) : String :=
  pad4 t.y ++ pad2 t.mo ++ pad2 t.d ++ "_" ++ pad2 t.h ++ pad2 t.mi ++ pad2 t.sec

/-- `export_to_csv()` (app.py:680–684): a no-op when no analysis has
succeeded (`current_data is None`); otherwise writes the cached
extended table — every row, every column (`to_csv(..., index=False)`)
— under `{TICKER}_{timestamp}.csv`.  The result is the written file:
its name and its full contents (`none` = nothing written). -/
def export_to_csv (currentData : Option DataFrame) (currentTicker : String)
    (now : Timestamp) : Option (String × DataFrame) :=
  match currentData with
  | none => none
  | some df =>
      some (currentTicker ++ "_" ++ strftimeYmdHMS now ++ ".csv", df)

/-! ## Auxiliary definitions used by the verification statements -/

/-- The eleven derived columns of the indicator pass, with names, in
assignment order. -/
def indicatorColumns (sqrtQ : ℚ → ℚ) (c : List ℚ) : List (String × List FV) :=
  [("SMA_20", sma_20 c), ("SMA_50", sma_50 c),
   ("EMA_12", (ema_12 c).map FV.fin), ("EMA_26", (ema_26 c).map FV.fin),
   ("MACD", (macdQ c).map FV.fin),
   ("MACD_Signal", (macd_signal c).map FV.fin),
   ("MACD_Histogram", (macd_histogram c).map FV.fin),
   ("RSI", rsiSeries c), ("BB_Middle", bb_middle c),
   ("BB_Upper", bb_upper sqrtQ c), ("BB_Lower", bb_lower sqrtQ c)]

/-- The value at row `i` of a derived column (NaN out of range or when
the column is missing); reading shorthand for the theorems. -/
def colD (df : DataFrame) (name : String) (i : ℕ) : FV :=
  ((df.getCol name).getD []).getD i FV.nan

/-- The numeric content of a panel: its glyphs' data arrays (styling
stripped) and its fixed value range. -/
def panelData (p : Panel) : List (List ℤ × List FV) × Option (ℚ × ℚ) :=
  (p.glyphs.map glyphData, p.yRange)

/-- Concrete closes 0, 1, …, 49: a 50-bar series for instantiations. -/
def sampleClose50 : List ℚ := (List.range 50).map (fun n => (n : ℚ))

/-- Concrete alternating 14-bar close series 1,2,1,2,…. -/
def alternatingClose14 : List ℚ := [1, 2, 1, 2, 1, 2, 1, 2, 1, 2, 1, 2, 1, 2]

/-- Twenty constant closes. -/
def onesClose20 : List ℚ := List.replicate 20 1

/-- A one-bar canonical frame. -/
def oneBarFrame : DataFrame :=
  ⟨[1], [100], [101], [99], [100], [1000], []⟩

/-- A two-bar canonical frame. -/
def twoBarFrame : DataFrame :=
  ⟨[1, 2], [100, 101], [101, 103], [99, 100], [100, 110], [1000, 1200], []⟩

/-- A three-bar canonical frame (too short for any RSI window). -/
def threeBarFrame : DataFrame :=
  ⟨[1, 2, 3], [100, 101, 102], [101, 102, 103], [99, 100, 101],
    [100, 101, 102], [1000, 1100, 1200], []⟩

/-- A zero-row frame, as the provider returns it when there is no
data. -/
def emptyFrame : DataFrame := ⟨[], [], [], [], [], [], []⟩

/-- A previously rendered panel sitting in the dashboard container. -/
def initialPanel : Panel :=
  { glyphs := [], bg := "#ffffff", textColor := "#2c3e50", yRange := none }

/-- An application state after one successful render. -/
def sampleState : AppState :=
  { tickerInput := "AAPL", activeLabels := ["SMA/EMA", "Bollinger Bands"],
    themeName := "light", statusLines := [], statusBorder := "#dee2e6",
    dashboardChildren := [initialPanel], currentTicker := "AAPL",
    currentData := none }

/-! ## Basic lemmas about the series primitives -/

theorem rollingApply_length (w : ℕ) (f : List ℚ → ℚ) (xs : List FV) :
    (rollingApply w f xs).length = xs.length := by
  simp [rollingApply]

theorem rollingMean_length (w : ℕ) (xs : List FV) :
    (rollingMean w xs).length = xs.length := rollingApply_length _ _ _

theorem rollingStd_length (sqrtQ : ℚ → ℚ) (w : ℕ) (xs : List FV) :
    (rollingStd sqrtQ w xs).length = xs.length := rollingApply_length _ _ _

theorem ewmFrom_length (a y : ℚ) (xs : List ℚ) :
    (ewmFrom a y xs).length = xs.length := by
  induction xs generalizing y with
  | nil => rfl
  | cons x xs ih => simp [ewmFrom, ih]

theorem ewmSpan_length (s : ℕ) (xs : List ℚ) :
    (ewmSpan s xs).length = xs.length := by
  cases xs with
  | nil => rfl
  | cons x xs => simp [ewmSpan, ewmFrom_length]

theorem diffQ_length (xs : List ℚ) : (diffQ xs).length = xs.length := by
  cases xs with
  | nil => rfl
  | cons x xs => simp [diffQ]

/-- The entry formula of a rolling computation inside the series. -/
theorem rollingApply_getD (w : ℕ) (f : List ℚ → ℚ) (xs : List FV) (i : ℕ)
    (hi : i < xs.length) :
    (rollingApply w f xs).getD i FV.nan =
      if i + 1 < w then FV.nan
      else
        match allFin (window w i xs) with
        | some qs => FV.fin (f qs)
        | none => FV.nan := by
  have hlen : i < (rollingApply w f xs).length := by
    rw [rollingApply_length]; exact hi
  rw [List.getD_eq_getElem _ _ hlen]
  simp [rollingApply]

/-- Below the window, a rolling computation yields NaN (also out of
range, where `getD` falls back to its NaN default). -/
theorem rollingApply_getD_nan (w : ℕ) (f : List ℚ → ℚ) (xs : List FV) (i : ℕ)
    (h : i + 1 < w) : (rollingApply w f xs).getD i FV.nan = FV.nan := by
  rcases Nat.lt_or_ge i xs.length with hi | hi
  · rw [rollingApply_getD w f xs i hi, if_pos h]
  · exact List.getD_eq_default _ _ (by rw [rollingApply_length]; exact hi)

/-- An all-finite list is recovered by `allFin`. -/
theorem allFin_map_fin (l : List ℚ) : allFin (l.map FV.fin) = some l := by
  induction l with
  | nil => rfl
  | cons x xs ih => simp [allFin, ih]

theorem window_map {α β : Type} (g : α → β) (w i : ℕ) (xs : List α) :
    window w i (xs.map g) = (window w i xs).map g := by
  simp [window, List.map_take, List.map_drop]

theorem mem_window {α : Type} {w i : ℕ} {xs : List α} {v : α}
    (h : v ∈ window w i xs) : v ∈ xs :=
  List.mem_of_mem_take (List.mem_of_mem_drop h)

/-- On a list of finite entries, `allFin` succeeds and every extracted
rational comes from a corresponding finite entry of the list. -/
theorem allFin_of_fin (xs : List FV)
    (h : ∀ v ∈ xs, ∃ q : ℚ, v = FV.fin q) :
    ∃ qs, allFin xs = some qs ∧ ∀ q ∈ qs, FV.fin q ∈ xs := by
  induction xs with
  | nil => exact ⟨[], rfl, by simp⟩
  | cons x xs ih =>
    obtain ⟨q, hq⟩ := h x (List.mem_cons_self _ _)
    obtain ⟨qs, hqs, hmem⟩ := ih (fun v hv => h v (List.mem_cons_of_mem _ hv))
    subst hq
    refine ⟨q :: qs, by simp [allFin, hqs], ?_⟩
    intro r hr
    rcases List.mem_cons.mp hr with rfl | hr
    · exact List.mem_cons_self _ _
    · exact List.mem_cons_of_mem _ (hmem r hr)

/-- The rolling mean of a series of nonnegative finite entries is,
from the first full window on, a nonnegative finite value. -/
theorem rollingMean_getD_nonneg (w : ℕ) (xs : List FV) (i : ℕ)
    (hw : w ≤ i + 1) (hi : i < xs.length) (hwpos : 0 < w)
    (h : ∀ v ∈ xs, ∃ q : ℚ, v = FV.fin q ∧ 0 ≤ q) :
    ∃ g : ℚ, (rollingMean w xs).getD i FV.nan = FV.fin g ∧ 0 ≤ g := by
  obtain ⟨qs, hqs, hmem⟩ :=
    allFin_of_fin (window w i xs)
      (fun v hv => (h v (mem_window hv)).imp (fun q hq => hq.1))
  refine ⟨qs.sum / (w : ℚ), ?_, ?_⟩
  · rw [rollingMean, rollingApply_getD w _ xs i hi, if_neg (by omega), hqs]
  · apply div_nonneg
    · apply List.sum_nonneg
      intro q hq
      obtain ⟨q', hq', hq'0⟩ := h (FV.fin q) (mem_window (hmem q hq))
      injection hq' with hh
      exact hh ▸ hq'0
    · positivity

/-! ## RSI lemmas -/

theorem diffQ_entries (c : List ℚ) (v : FV) (hv : v ∈ diffQ c) :
    v = FV.nan ∨ ∃ q : ℚ, v = FV.fin q := by
  cases c with
  | nil => simp [diffQ] at hv
  | cons x xs =>
    rcases List.mem_cons.mp hv with rfl | hv
    · exact Or.inl rfl
    · right
      obtain ⟨i, hi, hget⟩ := List.mem_iff_getElem.mp hv
      rw [List.getElem_zipWith] at hget
      exact ⟨_, hget.symm⟩

/-- Every entry of the gain series (`delta.where(delta > 0, 0)`) is a
nonnegative finite value: the leading NaN difference compares false
against 0 and is replaced by 0. -/
theorem gain_entries (c : List ℚ) :
    ∀ v ∈ (diffQ c).map (fun d => if FV.gt d (FV.fin 0) then d else FV.fin 0),
      ∃ q : ℚ, v = FV.fin q ∧ 0 ≤ q := by
  intro v hv
  obtain ⟨d, hd, rfl⟩ := List.mem_map.mp hv
  rcases diffQ_entries c d hd with rfl | ⟨q, rfl⟩
  · exact ⟨0, by simp [FV.gt], le_refl 0⟩
  · by_cases hq : 0 < q
    · exact ⟨q, by simp [FV.gt, hq], le_of_lt hq⟩
    · exact ⟨0, by simp [FV.gt, hq], le_refl 0⟩

/-- Every entry of the loss series (`-delta.where(delta < 0, 0)`) is a
nonnegative finite value. -/
theorem loss_entries (c : List ℚ) :
    ∀ v ∈ ((diffQ c).map
        (fun d => if FV.lt d (FV.fin 0) then d else FV.fin 0)).map FV.neg,
      ∃ q : ℚ, v = FV.fin q ∧ 0 ≤ q := by
  intro v hv
  obtain ⟨u, hu, rfl⟩ := List.mem_map.mp hv
  obtain ⟨d, hd, rfl⟩ := List.mem_map.mp hu
  rcases diffQ_entries c d hd with rfl | ⟨q, rfl⟩
  · exact ⟨0, by simp [FV.lt, FV.gt, FV.neg], le_refl 0⟩
  · by_cases hq : q < 0
    · exact ⟨-q, by simp [FV.lt, FV.gt, FV.neg, hq], by linarith⟩
    · exact ⟨0, by simp [FV.lt, FV.gt, FV.neg, hq], le_refl 0⟩

theorem gainMean_length (c : List ℚ) : (gainMean c).length = c.length := by
  simp [gainMean, rollingMean, rollingApply_length, diffQ_length]

theorem lossMean_length (c : List ℚ) : (lossMean c).length = c.length := by
  simp [lossMean, rollingMean, rollingApply_length, diffQ_length]

theorem rsSeries_length (c : List ℚ) : (rsSeries c).length = c.length := by
  simp [rsSeries, gainMean_length, lossMean_length]

theorem rsiSeries_length (c : List ℚ) : (rsiSeries c).length = c.length := by
  simp [rsiSeries, rsSeries_length]

/-- Pointwise form of the RSI column in terms of the gain and loss
rolling means. -/
theorem rsiSeries_getD (c : List ℚ) (i : ℕ) (hi : i < c.length) :
    (rsiSeries c).getD i FV.nan =
      FV.sub (FV.fin 100) (FV.div (FV.fin 100) (FV.add (FV.fin 1)
        (FV.div ((gainMean c).getD i FV.nan) ((lossMean c).getD i FV.nan)))) := by
  have h1 : i < (rsiSeries c).length := by rw [rsiSeries_length]; exact hi
  have h2 : i < (rsSeries c).length := by rw [rsSeries_length]; exact hi
  have h3 : i < (gainMean c).length := by rw [gainMean_length]; exact hi
  have h4 : i < (lossMean c).length := by rw [lossMean_length]; exact hi
  rw [List.getD_eq_getElem _ _ h1, List.getD_eq_getElem _ _ h3,
    List.getD_eq_getElem _ _ h4]
  simp [rsiSeries, rsSeries]

/-- The arithmetic heart of the RSI bound: with nonnegative finite
gain and loss means, `100 − 100/(1+gain/loss)` is NaN (the 0/0 case)
or a finite value in [0, 100] (the loss-free case gives exactly 100
via rs = +∞). -/
theorem rsi_value_range (g l : ℚ) (hg : 0 ≤ g) (hl : 0 ≤ l) :
    FV.sub (FV.fin 100) (FV.div (FV.fin 100) (FV.add (FV.fin 1)
        (FV.div (FV.fin g) (FV.fin l)))) = FV.nan ∨
      ∃ q : ℚ,
        FV.sub (FV.fin 100) (FV.div (FV.fin 100) (FV.add (FV.fin 1)
          (FV.div (FV.fin g) (FV.fin l)))) = FV.fin q ∧ 0 ≤ q ∧ q ≤ 100 := by
  by_cases hl0 : l = 0
  · by_cases hg0 : g = 0
    · left
      simp [FV.div, FV.add, FV.sub, FV.neg, hl0, hg0]
    · right
      have hgpos : 0 < g := lt_of_le_of_ne hg (Ne.symm hg0)
      refine ⟨100, ?_, by norm_num, le_refl 100⟩
      simp [FV.div, FV.add, FV.sub, FV.neg, hl0, hg0, hgpos]
  · right
    have hlpos : 0 < l := lt_of_le_of_ne hl (Ne.symm hl0)
    have hq : 0 ≤ g / l := div_nonneg hg hl
    have h1 : (1 : ℚ) + g / l ≠ 0 := by positivity
    refine ⟨100 - 100 / (1 + g / l), ?_, ?_, ?_⟩
    · simp [FV.div, FV.add, FV.sub, FV.neg, hl0, h1]
      ring
    · have hle : 100 / (1 + g / l) ≤ 100 :=
        div_le_self (by norm_num) (by linarith)
      linarith
    · have hpos : 0 < 100 / (1 + g / l) := by positivity
      linarith

theorem rollingMean_getD_nan (w : ℕ) (xs : List FV) (i : ℕ)
    (h : i + 1 < w) : (rollingMean w xs).getD i FV.nan = FV.nan :=
  rollingApply_getD_nan w _ xs i h

/-- On an all-finite series, the rolling mean from the first full
window on is the window sum over `w`. -/
theorem rollingMean_map_fin_getD (w : ℕ) (c : List ℚ) (i : ℕ)
    (hi : i < c.length) (hw : w ≤ i + 1) :
    (rollingMean w (c.map FV.fin)).getD i FV.nan =
      FV.fin ((window w i c).sum / (w : ℚ)) := by
  rw [rollingMean, rollingApply_getD _ _ _ i (by simpa using hi),
    if_neg (by omega), window_map, allFin_map_fin]

/-- Before the 14th row the RSI value is NaN: both rolling means are
still unfilled. -/
theorem rsiSeries_getD_nan (c : List ℚ) (i : ℕ) (h : i + 1 < 14) :
    (rsiSeries c).getD i FV.nan = FV.nan := by
  rcases Nat.lt_or_ge i c.length with hi | hi
  · rw [rsiSeries_getD c i hi]
    have hg : (gainMean c).getD i FV.nan = FV.nan := by
      simp only [gainMean]; exact rollingMean_getD_nan 14 _ i h
    have hl : (lossMean c).getD i FV.nan = FV.nan := by
      simp only [lossMean]; exact rollingMean_getD_nan 14 _ i h
    rw [hg, hl]
    simp [FV.div, FV.add, FV.sub, FV.neg]
  · exact List.getD_eq_default _ _ (by rw [rsiSeries_length]; exact hi)

/-- Wherever the RSI value is not NaN it is a finite value in
[0, 100]. -/
theorem rsiSeries_getD_range (c : List ℚ) (i : ℕ) :
    (rsiSeries c).getD i FV.nan = FV.nan ∨
      ∃ q : ℚ, (rsiSeries c).getD i FV.nan = FV.fin q ∧ 0 ≤ q ∧ q ≤ 100 := by
  rcases Nat.lt_or_ge i c.length with hi | hi
  · rcases Nat.lt_or_ge (i + 1) 14 with h14 | h14
    · exact Or.inl (rsiSeries_getD_nan c i h14)
    · rw [rsiSeries_getD c i hi]
      obtain ⟨g, hgEq, hg0⟩ :=
        rollingMean_getD_nonneg 14 _ i h14
          (by simpa [diffQ_length] using hi) (by norm_num) (gain_entries c)
      obtain ⟨l, hlEq, hl0⟩ :=
        rollingMean_getD_nonneg 14 _ i h14
          (by simpa [diffQ_length] using hi) (by norm_num) (loss_entries c)
      have hg' : (gainMean c).getD i FV.nan = FV.fin g := hgEq
      have hl' : (lossMean c).getD i FV.nan = FV.fin l := hlEq
      rw [hg', hl']
      exact rsi_value_range g l hg0 hl0
  · exact Or.inl (List.getD_eq_default _ _ (by rw [rsiSeries_length]; exact hi))

/-! ## Bollinger lemmas -/

theorem bb_middle_length (c : List ℚ) : (bb_middle c).length = c.length := by
  simp [bb_middle, rollingMean, rollingApply_length]

theorem bb_stdSeries_length (sqrtQ : ℚ → ℚ) (c : List ℚ) :
    (bb_stdSeries sqrtQ c).length = c.length := by
  simp [bb_stdSeries, rollingStd, rollingApply_length]

theorem bb_upper_length (sqrtQ : ℚ → ℚ) (c : List ℚ) :
    (bb_upper sqrtQ c).length = c.length := by
  simp [bb_upper, bb_middle_length, bb_stdSeries_length]

theorem bb_lower_length (sqrtQ : ℚ → ℚ) (c : List ℚ) :
    (bb_lower sqrtQ c).length = c.length := by
  simp [bb_lower, bb_middle_length, bb_stdSeries_length]

/-- Pointwise form of the upper band: middle plus twice the rolling
standard deviation. -/
theorem bb_upper_getD (sqrtQ : ℚ → ℚ) (c : List ℚ) (i : ℕ)
    (hi : i < c.length) :
    (bb_upper sqrtQ c).getD i FV.nan =
      FV.add ((bb_middle c).getD i FV.nan)
        (FV.mul ((bb_stdSeries sqrtQ c).getD i FV.nan) (FV.fin 2)) := by
  have h1 : i < (bb_upper sqrtQ c).length := by
    rw [bb_upper_length]; exact hi
  have h2 : i < (bb_middle c).length := by rw [bb_middle_length]; exact hi
  have h3 : i < (bb_stdSeries sqrtQ c).length := by
    rw [bb_stdSeries_length]; exact hi
  rw [List.getD_eq_getElem _ _ h1, List.getD_eq_getElem _ _ h2,
    List.getD_eq_getElem _ _ h3]
  simp [bb_upper]

/-- Pointwise form of the lower band: middle minus twice the rolling
standard deviation. -/
theorem bb_lower_getD (sqrtQ : ℚ → ℚ) (c : List ℚ) (i : ℕ)
    (hi : i < c.length) :
    (bb_lower sqrtQ c).getD i FV.nan =
      FV.sub ((bb_middle c).getD i FV.nan)
        (FV.mul ((bb_stdSeries sqrtQ c).getD i FV.nan) (FV.fin 2)) := by
  have h1 : i < (bb_lower sqrtQ c).length := by
    rw [bb_lower_length]; exact hi
  have h2 : i < (bb_middle c).length := by rw [bb_middle_length]; exact hi
  have h3 : i < (bb_stdSeries sqrtQ c).length := by
    rw [bb_stdSeries_length]; exact hi
  rw [List.getD_eq_getElem _ _ h1, List.getD_eq_getElem _ _ h2,
    List.getD_eq_getElem _ _ h3]
  simp [bb_lower]

theorem bb_upper_getD_nan (sqrtQ : ℚ → ℚ) (c : List ℚ) (i : ℕ)
    (h : i + 1 < 20) : (bb_upper sqrtQ c).getD i FV.nan = FV.nan := by
  rcases Nat.lt_or_ge i c.length with hi | hi
  · rw [bb_upper_getD sqrtQ c i hi]
    have hm : (bb_middle c).getD i FV.nan = FV.nan := by
      simp only [bb_middle]; exact rollingMean_getD_nan 20 _ i h
    have hs : (bb_stdSeries sqrtQ c).getD i FV.nan = FV.nan := by
      simp only [bb_stdSeries, rollingStd]
      exact rollingApply_getD_nan 20 _ _ i h
    rw [hm, hs]
    rfl
  · exact List.getD_eq_default _ _ (by rw [bb_upper_length]; exact hi)

theorem bb_lower_getD_nan (sqrtQ : ℚ → ℚ) (c : List ℚ) (i : ℕ)
    (h : i + 1 < 20) : (bb_lower sqrtQ c).getD i FV.nan = FV.nan := by
  rcases Nat.lt_or_ge i c.length with hi | hi
  · rw [bb_lower_getD sqrtQ c i hi]
    have hm : (bb_middle c).getD i FV.nan = FV.nan := by
      simp only [bb_middle]; exact rollingMean_getD_nan 20 _ i h
    have hs : (bb_stdSeries sqrtQ c).getD i FV.nan = FV.nan := by
      simp only [bb_stdSeries, rollingStd]
      exact rollingApply_getD_nan 20 _ _ i h
    rw [hm, hs]
    rfl
  · exact List.getD_eq_default _ _ (by rw [bb_lower_length]; exact hi)

/-! ## DataFrame lemmas -/

@[simp] theorem setCol_dateCol (df : DataFrame) (n : String) (v : List FV) :
    (df.setCol n v).dateCol = df.dateCol := by
  unfold DataFrame.setCol; split <;> rfl

@[simp] theorem setCol_openCol (df : DataFrame) (n : String) (v : List FV) :
    (df.setCol n v).openCol = df.openCol := by
  unfold DataFrame.setCol; split <;> rfl

@[simp] theorem setCol_highCol (df : DataFrame) (n : String) (v : List FV) :
    (df.setCol n v).highCol = df.highCol := by
  unfold DataFrame.setCol; split <;> rfl

@[simp] theorem setCol_lowCol (df : DataFrame) (n : String) (v : List FV) :
    (df.setCol n v).lowCol = df.lowCol := by
  unfold DataFrame.setCol; split <;> rfl

@[simp] theorem setCol_closeCol (df : DataFrame) (n : String) (v : List FV) :
    (df.setCol n v).closeCol = df.closeCol := by
  unfold DataFrame.setCol; split <;> rfl

@[simp] theorem setCol_volumeCol (df : DataFrame) (n : String) (v : List FV) :
    (df.setCol n v).volumeCol = df.volumeCol := by
  unfold DataFrame.setCol; split <;> rfl

theorem addIndicatorColumns_base (sqrtQ : ℚ → ℚ) (df : DataFrame) :
    (addIndicatorColumns sqrtQ df).dateCol = df.dateCol ∧
    (addIndicatorColumns sqrtQ df).openCol = df.openCol ∧
    (addIndicatorColumns sqrtQ df).highCol = df.highCol ∧
    (addIndicatorColumns sqrtQ df).lowCol = df.lowCol ∧
    (addIndicatorColumns sqrtQ df).closeCol = df.closeCol ∧
    (addIndicatorColumns sqrtQ df).volumeCol = df.volumeCol := by
  unfold addIndicatorColumns
  simp

/-- On a freshly ingested frame (no derived columns yet), the eleven
assignments append the eleven columns in order. -/
theorem addIndicatorColumns_extra (sqrtQ : ℚ → ℚ) (df : DataFrame)
    (h : df.extra = []) :
    (addIndicatorColumns sqrtQ df).extra = indicatorColumns sqrtQ df.closeCol := by
  unfold addIndicatorColumns indicatorColumns
  simp [DataFrame.setCol, h]

theorem getCol_res_SMA20 (sqrtQ : ℚ → ℚ) (df : DataFrame) (h : df.extra = []) :
    (addIndicatorColumns sqrtQ df).getCol "SMA_20" = some (sma_20 df.closeCol) := by
  rw [DataFrame.getCol, addIndicatorColumns_extra sqrtQ df h]
  simp [indicatorColumns, List.find?]

theorem getCol_res_SMA50 (sqrtQ : ℚ → ℚ) (df : DataFrame) (h : df.extra = []) :
    (addIndicatorColumns sqrtQ df).getCol "SMA_50" = some (sma_50 df.closeCol) := by
  rw [DataFrame.getCol, addIndicatorColumns_extra sqrtQ df h]
  simp [indicatorColumns, List.find?]

theorem getCol_res_EMA12 (sqrtQ : ℚ → ℚ) (df : DataFrame) (h : df.extra = []) :
    (addIndicatorColumns sqrtQ df).getCol "EMA_12" =
      some ((ema_12 df.closeCol).map FV.fin) := by
  rw [DataFrame.getCol, addIndicatorColumns_extra sqrtQ df h]
  simp [indicatorColumns, List.find?]

theorem getCol_res_EMA26 (sqrtQ : ℚ → ℚ) (df : DataFrame) (h : df.extra = []) :
    (addIndicatorColumns sqrtQ df).getCol "EMA_26" =
      some ((ema_26 df.closeCol).map FV.fin) := by
  rw [DataFrame.getCol, addIndicatorColumns_extra sqrtQ df h]
  simp [indicatorColumns, List.find?]

theorem getCol_res_MACD (sqrtQ : ℚ → ℚ) (df : DataFrame) (h : df.extra = []) :
    (addIndicatorColumns sqrtQ df).getCol "MACD" =
      some ((macdQ df.closeCol).map FV.fin) := by
  rw [DataFrame.getCol, addIndicatorColumns_extra sqrtQ df h]
  simp [indicatorColumns, List.find?]

theorem getCol_res_Signal (sqrtQ : ℚ → ℚ) (df : DataFrame) (h : df.extra = []) :
    (addIndicatorColumns sqrtQ df).getCol "MACD_Signal" =
      some ((macd_signal df.closeCol).map FV.fin) := by
  rw [DataFrame.getCol, addIndicatorColumns_extra sqrtQ df h]
  simp [indicatorColumns, List.find?]

theorem getCol_res_Histogram (sqrtQ : ℚ → ℚ) (df : DataFrame) (h : df.extra = []) :
    (addIndicatorColumns sqrtQ df).getCol "MACD_Histogram" =
      some ((macd_histogram df.closeCol).map FV.fin) := by
  rw [DataFrame.getCol, addIndicatorColumns_extra sqrtQ df h]
  simp [indicatorColumns, List.find?]

theorem getCol_res_RSI (sqrtQ : ℚ → ℚ) (df : DataFrame) (h : df.extra = []) :
    (addIndicatorColumns sqrtQ df).getCol "RSI" = some (rsiSeries df.closeCol) := by
  rw [DataFrame.getCol, addIndicatorColumns_extra sqrtQ df h]
  simp [indicatorColumns, List.find?]

theorem getCol_res_BBMiddle (sqrtQ : ℚ → ℚ) (df : DataFrame) (h : df.extra = []) :
    (addIndicatorColumns sqrtQ df).getCol "BB_Middle" =
      some (bb_middle df.closeCol) := by
  rw [DataFrame.getCol, addIndicatorColumns_extra sqrtQ df h]
  simp [indicatorColumns, List.find?]

theorem getCol_res_BBUpper (sqrtQ : ℚ → ℚ) (df : DataFrame) (h : df.extra = []) :
    (addIndicatorColumns sqrtQ df).getCol "BB_Upper" =
      some (bb_upper sqrtQ df.closeCol) := by
  rw [DataFrame.getCol, addIndicatorColumns_extra sqrtQ df h]
  simp [indicatorColumns, List.find?]

theorem getCol_res_BBLower (sqrtQ : ℚ → ℚ) (df : DataFrame) (h : df.extra = []) :
    (addIndicatorColumns sqrtQ df).getCol "BB_Lower" =
      some (bb_lower sqrtQ df.closeCol) := by
  rw [DataFrame.getCol, addIndicatorColumns_extra sqrtQ df h]
  simp [indicatorColumns, List.find?]

/-! ## Column length lemmas -/

theorem sma_20_length (c : List ℚ) : (sma_20 c).length = c.length := by
  simp [sma_20, rollingMean, rollingApply_length]

theorem sma_50_length (c : List ℚ) : (sma_50 c).length = c.length := by
  simp [sma_50, rollingMean, rollingApply_length]

theorem ema_12_length (c : List ℚ) : (ema_12 c).length = c.length :=
  ewmSpan_length 12 c

theorem ema_26_length (c : List ℚ) : (ema_26 c).length = c.length :=
  ewmSpan_length 26 c

theorem macdQ_length (c : List ℚ) : (macdQ c).length = c.length := by
  simp [macdQ, List.length_zipWith, ema_12_length, ema_26_length]

theorem macd_signal_length (c : List ℚ) : (macd_signal c).length = c.length := by
  simp [macd_signal, ewmSpan_length, macdQ_length]

theorem macd_histogram_length (c : List ℚ) :
    (macd_histogram c).length = c.length := by
  simp [macd_histogram, List.length_zipWith, macdQ_length, macd_signal_length]

/-! ## Pointwise bridges -/

theorem map_fin_getD (l : List ℚ) (i : ℕ) (hi : i < l.length) :
    (l.map FV.fin).getD i FV.nan = FV.fin (l.getD i 0) := by
  rw [List.getD_eq_getElem _ _ (by simpa using hi), List.getD_eq_getElem _ _ hi,
    List.getElem_map]

theorem zipWith_sub_getD (a b : List ℚ) (i : ℕ) (ha : i < a.length)
    (hb : i < b.length) :
    (List.zipWith (fun x y => x - y) a b).getD i 0 = a.getD i 0 - b.getD i 0 := by
  rw [List.getD_eq_getElem _ _ (by simp [List.length_zipWith]; omega),
    List.getD_eq_getElem _ _ ha, List.getD_eq_getElem _ _ hb, List.getElem_zipWith]

/-- A column is all-NaN as soon as each in-range position is NaN. -/
theorem eq_nan_of_getD_nan (col : List FV)
    (h : ∀ i, i < col.length → col.getD i FV.nan = FV.nan) :
    ∀ v ∈ col, v = FV.nan := by
  intro v hv
  obtain ⟨i, hi, rfl⟩ := List.mem_iff_getElem.mp hv
  rw [← List.getD_eq_getElem col FV.nan hi]
  exact h i hi

/-- NaN-or-defined dichotomy for rolling means over an all-finite
series, as an iff on the index. -/
theorem rollingMean_map_fin_nan_iff (w : ℕ) (c : List ℚ) (i : ℕ)
    (hi : i < c.length) :
    ((rollingMean w (c.map FV.fin)).getD i FV.nan = FV.nan ↔ i + 1 < w) := by
  constructor
  · intro h
    by_contra hw
    push_neg at hw
    rw [rollingMean_map_fin_getD w c i hi hw] at h
    exact FV.noConfusion h
  · exact rollingMean_getD_nan w _ i

/-! ## Claim theorems -/

/-- C2: for every valid series with at least 50 bars, the SMA-20
column has exactly 19 leading absent values and equals the 20-window
trailing mean of Close from index 19 on, and the SMA-50 column has
exactly 49 leading absents and is defined from index 49 on. -/
theorem sma_leading_absents (c : List ℚ) (_h50 : 50 ≤ c.length) (i : ℕ)
    (hi : i < c.length) :
    ((sma_20 c).getD i FV.nan = FV.nan ↔ i < 19) ∧
    (19 ≤ i → (sma_20 c).getD i FV.nan =
      FV.fin ((window 20 i c).sum / 20)) ∧
    ((sma_50 c).getD i FV.nan = FV.nan ↔ i < 49) ∧
    (49 ≤ i → (sma_50 c).getD i FV.nan =
      FV.fin ((window 50 i c).sum / 50)) := by
  refine ⟨?_, ?_, ?_, ?_⟩
  · simp only [sma_20]
    rw [rollingMean_map_fin_nan_iff 20 c i hi]
    omega
  · intro h19
    simp only [sma_20]
    exact rollingMean_map_fin_getD 20 c i hi (by omega)
  · simp only [sma_50]
    rw [rollingMean_map_fin_nan_iff 50 c i hi]
    omega
  · intro h49
    simp only [sma_50]
    exact rollingMean_map_fin_getD 50 c i hi (by omega)

unseal Rat.add Rat.mul Rat.inv Rat.sub in
/-- Witness for C2 at the concrete 50-bar series, index 19. -/
theorem sma_leading_absents_witness :
    50 ≤ sampleClose50.length ∧ (19 : ℕ) < sampleClose50.length ∧
    (sma_20 sampleClose50).getD 19 FV.nan =
      FV.fin ((window 20 19 sampleClose50).sum / 20) :=
  ⟨by decide, by decide,
    (sma_leading_absents sampleClose50 (by decide) 19 (by decide)).2.1
      (le_refl 19)⟩

/-- C4: wherever all three Bollinger columns are defined the band is
symmetric about its middle, and the middle column is the SMA-20
column (the same rolling mean of Close). -/
theorem bollinger_band_symmetric (sqrtQ : ℚ → ℚ) (c : List ℚ) :
    bb_middle c = sma_20 c ∧
    ∀ i : ℕ, ∀ u m l : ℚ,
      (bb_upper sqrtQ c).getD i FV.nan = FV.fin u →
      (bb_middle c).getD i FV.nan = FV.fin m →
      (bb_lower sqrtQ c).getD i FV.nan = FV.fin l →
      u - m = m - l := by
  refine ⟨rfl, ?_⟩
  intro i u m l hu hm hl
  have hi : i < c.length := by
    by_contra hge
    push_neg at hge
    rw [List.getD_eq_default _ _ (by rw [bb_upper_length]; exact hge)] at hu
    exact FV.noConfusion hu
  rw [bb_upper_getD sqrtQ c i hi, hm] at hu
  rw [bb_lower_getD sqrtQ c i hi, hm] at hl
  cases hs : (bb_stdSeries sqrtQ c).getD i FV.nan with
  | fin s =>
    rw [hs] at hu hl
    simp [FV.add, FV.sub, FV.mul, FV.neg] at hu hl
    linarith
  | pinf =>
    rw [hs] at hu
    norm_num [FV.add, FV.mul] at hu
    exact FV.noConfusion hu
  | ninf =>
    rw [hs] at hu
    norm_num [FV.add, FV.mul] at hu
    exact FV.noConfusion hu
  | nan =>
    rw [hs] at hu
    norm_num [FV.add, FV.mul] at hu
    exact FV.noConfusion hu

unseal Rat.add Rat.mul Rat.inv Rat.sub in
/-- Witness for C4 at twenty constant closes, index 19. -/
theorem bollinger_band_symmetric_witness :
    (bb_upper (fun q => q) onesClose20).getD 19 FV.nan = FV.fin 1 ∧
    (bb_middle onesClose20).getD 19 FV.nan = FV.fin 1 ∧
    (bb_lower (fun q => q) onesClose20).getD 19 FV.nan = FV.fin 1 ∧
    (1 : ℚ) - 1 = 1 - 1 :=
  ⟨by decide, by decide, by decide,
    (bollinger_band_symmetric (fun q => q) onesClose20).2 19 1 1 1
      (by decide) (by decide) (by decide)⟩

/-- C3 (amended): wherever the RSI-14 value is defined it is a finite
value in [0, 100]; the first 13 entries (indices 0–12) are absent.
The original claim's "first 14" fails: `delta.where(delta > 0, 0)`
replaces the leading NaN difference by 0, so both 14-window rolling
means — and hence RSI — are already defined at index 13. -/
theorem rsi_bounds_and_leading_absents (c : List ℚ) (i : ℕ)
    (_hi : i < c.length) :
    (i < 13 → (rsiSeries c).getD i FV.nan = FV.nan) ∧
    ((rsiSeries c).getD i FV.nan ≠ FV.nan →
      ∃ q : ℚ, (rsiSeries c).getD i FV.nan = FV.fin q ∧ 0 ≤ q ∧ q ≤ 100) := by
  constructor
  · intro h13
    exact rsiSeries_getD_nan c i (by omega)
  · intro hne
    rcases rsiSeries_getD_range c i with h | h
    · exact absurd h hne
    · exact h

unseal Rat.add Rat.mul Rat.inv Rat.sub in
/-- C3 counterexample: on the alternating 14-bar series the 14th RSI
entry (index 13) is already defined (equal to 700/13), so the first 14
entries are not all absent. -/
theorem rsi_has_only_13_leading_absents :
    13 < (rsiSeries alternatingClose14).length ∧
    (rsiSeries alternatingClose14).getD 13 FV.nan = FV.fin (700 / 13) := by
  exact ⟨by decide, by decide⟩

unseal Rat.add Rat.mul Rat.inv Rat.sub in
/-- Witness for C3 at the alternating series, index 5. -/
theorem rsi_bounds_witness :
    (5 : ℕ) < alternatingClose14.length ∧
    (rsiSeries alternatingClose14).getD 5 FV.nan = FV.nan :=
  ⟨by decide,
    (rsi_bounds_and_leading_absents alternatingClose14 5 (by decide)).1
      (by decide)⟩

/-- C1: the MACD column is pointwise the EMA-12 column minus the
EMA-26 column, the MACD-Signal column is the span-9 adjust=False EMA of
the MACD column, the histogram is MACD minus Signal pointwise, and all
three are finite (defined) at every index. -/
theorem macd_identities (sqrtQ : ℚ → ℚ) (df : DataFrame)
    (hne : df.isEmpty = false) (hx : df.extra = []) :
    ∃ df2 : DataFrame,
      calculate_technical_indicators sqrtQ (some df) = some df2 ∧
      (∃ m : List ℚ,
        df2.getCol "MACD" = some (m.map FV.fin) ∧
        m = List.zipWith (fun a b => a - b) (ema_12 df.closeCol)
              (ema_26 df.closeCol) ∧
        df2.getCol "MACD_Signal" = some ((ewmSpan 9 m).map FV.fin)) ∧
      ∀ i : ℕ, i < df.nrows →
        colD df2 "MACD" i =
          FV.sub (colD df2 "EMA_12" i) (colD df2 "EMA_26" i) ∧
        colD df2 "MACD_Histogram" i =
          FV.sub (colD df2 "MACD" i) (colD df2 "MACD_Signal" i) ∧
        (colD df2 "MACD" i).isFin = true ∧
        (colD df2 "MACD_Signal" i).isFin = true ∧
        (colD df2 "MACD_Histogram" i).isFin = true := by
  refine ⟨addIndicatorColumns sqrtQ df, ?_,
    ⟨macdQ df.closeCol, getCol_res_MACD sqrtQ df hx, rfl,
      getCol_res_Signal sqrtQ df hx⟩, ?_⟩
  · simp [calculate_technical_indicators, hne]
  · intro i hi
    have hi' : i < df.closeCol.length := hi
    have hMACD : colD (addIndicatorColumns sqrtQ df) "MACD" i =
        FV.fin ((macdQ df.closeCol).getD i 0) := by
      rw [colD, getCol_res_MACD sqrtQ df hx, Option.getD_some]
      exact map_fin_getD _ i (by rw [macdQ_length]; exact hi')
    have hE12 : colD (addIndicatorColumns sqrtQ df) "EMA_12" i =
        FV.fin ((ema_12 df.closeCol).getD i 0) := by
      rw [colD, getCol_res_EMA12 sqrtQ df hx, Option.getD_some]
      exact map_fin_getD _ i (by rw [ema_12_length]; exact hi')
    have hE26 : colD (addIndicatorColumns sqrtQ df) "EMA_26" i =
        FV.fin ((ema_26 df.closeCol).getD i 0) := by
      rw [colD, getCol_res_EMA26 sqrtQ df hx, Option.getD_some]
      exact map_fin_getD _ i (by rw [ema_26_length]; exact hi')
    have hSig : colD (addIndicatorColumns sqrtQ df) "MACD_Signal" i =
        FV.fin ((macd_signal df.closeCol).getD i 0) := by
      rw [colD, getCol_res_Signal sqrtQ df hx, Option.getD_some]
      exact map_fin_getD _ i (by rw [macd_signal_length]; exact hi')
    have hHist : colD (addIndicatorColumns sqrtQ df) "MACD_Histogram" i =
        FV.fin ((macd_histogram df.closeCol).getD i 0) := by
      rw [colD, getCol_res_Histogram sqrtQ df hx, Option.getD_some]
      exact map_fin_getD _ i (by rw [macd_histogram_length]; exact hi')
    have h1 : (macdQ df.closeCol).getD i 0 =
        (ema_12 df.closeCol).getD i 0 - (ema_26 df.closeCol).getD i 0 :=
      zipWith_sub_getD _ _ i (by rw [ema_12_length]; exact hi')
        (by rw [ema_26_length]; exact hi')
    have h2 : (macd_histogram df.closeCol).getD i 0 =
        (macdQ df.closeCol).getD i 0 - (macd_signal df.closeCol).getD i 0 :=
      zipWith_sub_getD _ _ i (by rw [macdQ_length]; exact hi')
        (by rw [macd_signal_length]; exact hi')
    refine ⟨?_, ?_, ?_, ?_, ?_⟩
    · rw [hMACD, hE12, hE26, h1]
      simp [FV.sub, FV.add, FV.neg, sub_eq_add_neg]
    · rw [hHist, hMACD, hSig, h2]
      simp [FV.sub, FV.add, FV.neg, sub_eq_add_neg]
    · rw [hMACD]; rfl
    · rw [hSig]; rfl
    · rw [hHist]; rfl

unseal Rat.add Rat.mul Rat.inv Rat.sub in
/-- Witness for C1 on the concrete two-bar frame, index 0. -/
theorem macd_identities_witness :
    twoBarFrame.isEmpty = false ∧ twoBarFrame.extra = [] ∧
    ∃ df2 : DataFrame,
      calculate_technical_indicators (fun q => q) (some twoBarFrame) =
        some df2 ∧
      colD df2 "MACD" 0 = FV.sub (colD df2 "EMA_12" 0) (colD df2 "EMA_26" 0) := by
  obtain ⟨df2, hcalc, _, hpt⟩ :=
    macd_identities (fun q => q) twoBarFrame (by decide) rfl
  exact ⟨by decide, rfl, df2, hcalc, (hpt 0 (by decide)).1⟩

/-- C10: on a non-empty freshly ingested frame, the indicator pass
keeps the row count and every base column (Date, Open, High, Low,
Close, Volume) unchanged, and its only effect is to append exactly the
eleven derived columns, in order, to the table it returns. -/
theorem indicators_frame_effect (sqrtQ : ℚ → ℚ) (df : DataFrame)
    (hne : df.isEmpty = false) (hx : df.extra = []) :
    calculate_technical_indicators sqrtQ (some df) =
      some (addIndicatorColumns sqrtQ df) ∧
    (addIndicatorColumns sqrtQ df).dateCol = df.dateCol ∧
    (addIndicatorColumns sqrtQ df).openCol = df.openCol ∧
    (addIndicatorColumns sqrtQ df).highCol = df.highCol ∧
    (addIndicatorColumns sqrtQ df).lowCol = df.lowCol ∧
    (addIndicatorColumns sqrtQ df).closeCol = df.closeCol ∧
    (addIndicatorColumns sqrtQ df).volumeCol = df.volumeCol ∧
    (addIndicatorColumns sqrtQ df).nrows = df.nrows ∧
    (addIndicatorColumns sqrtQ df).extra = indicatorColumns sqrtQ df.closeCol ∧
    (indicatorColumns sqrtQ df.closeCol).map Prod.fst =
      ["SMA_20", "SMA_50", "EMA_12", "EMA_26", "MACD", "MACD_Signal",
       "MACD_Histogram", "RSI", "BB_Middle", "BB_Upper", "BB_Lower"] ∧
    ∀ p ∈ indicatorColumns sqrtQ df.closeCol, p.2.length = df.nrows := by
  obtain ⟨hd, ho, hh, hl, hc, hv⟩ := addIndicatorColumns_base sqrtQ df
  refine ⟨by simp [calculate_technical_indicators, hne], hd, ho, hh, hl, hc, hv,
    ?_, addIndicatorColumns_extra sqrtQ df hx, by simp [indicatorColumns], ?_⟩
  · rw [DataFrame.nrows, DataFrame.nrows, hc]
  · intro p hp
    fin_cases hp <;>
      simp [DataFrame.nrows, sma_20_length, sma_50_length, ema_12_length,
        ema_26_length, macdQ_length, macd_signal_length, macd_histogram_length,
        rsiSeries_length, bb_middle_length, bb_upper_length, bb_lower_length]

unseal Rat.add Rat.mul Rat.inv Rat.sub in
/-- Witness for C10 on the concrete two-bar frame. -/
theorem indicators_frame_effect_witness :
    twoBarFrame.isEmpty = false ∧ twoBarFrame.extra = [] ∧
    (addIndicatorColumns (fun q => q) twoBarFrame).closeCol =
      twoBarFrame.closeCol :=
  ⟨by decide, rfl,
    (indicators_frame_effect (fun q => q) twoBarFrame (by decide) rfl).2.2.2.2.2.1⟩

/-- C5: the indicator computation is total (never an error): on any
frame it returns a frame; every rolling column is NaN on its whole
unfilled prefix; and on a series with fewer than 2 bars every value of
every rolling-window column of the result is absent. -/
theorem short_series_all_absent (sqrtQ : ℚ → ℚ) (df : DataFrame) :
    (calculate_technical_indicators sqrtQ (some df)).isSome = true ∧
    (∀ i : ℕ,
      (i + 1 < 20 → (sma_20 df.closeCol).getD i FV.nan = FV.nan ∧
        (bb_middle df.closeCol).getD i FV.nan = FV.nan ∧
        (bb_upper sqrtQ df.closeCol).getD i FV.nan = FV.nan ∧
        (bb_lower sqrtQ df.closeCol).getD i FV.nan = FV.nan) ∧
      (i + 1 < 50 → (sma_50 df.closeCol).getD i FV.nan = FV.nan) ∧
      (i + 1 < 14 → (rsiSeries df.closeCol).getD i FV.nan = FV.nan)) ∧
    (df.nrows < 2 → df.extra = [] →
      ∀ df2 : DataFrame,
        calculate_technical_indicators sqrtQ (some df) = some df2 →
        ∀ name ∈ ["SMA_20", "SMA_50", "RSI", "BB_Middle", "BB_Upper",
          "BB_Lower"],
          ∀ col : List FV, df2.getCol name = some col →
            ∀ v ∈ col, v = FV.nan) := by
  refine ⟨?_, ?_, ?_⟩
  · show (if df.isEmpty then some df
      else some (addIndicatorColumns sqrtQ df)).isSome = true
    split <;> rfl
  · intro i
    refine ⟨fun h20 => ⟨?_, ?_, ?_, ?_⟩, fun h50 => ?_, fun h14 => ?_⟩
    · simp only [sma_20]; exact rollingMean_getD_nan 20 _ i h20
    · simp only [bb_middle]; exact rollingMean_getD_nan 20 _ i h20
    · exact bb_upper_getD_nan sqrtQ _ i h20
    · exact bb_lower_getD_nan sqrtQ _ i h20
    · simp only [sma_50]; exact rollingMean_getD_nan 50 _ i h50
    · exact rsiSeries_getD_nan _ i h14
  · intro hlt hx df2 hdf2 name hname col hcol v hv
    by_cases h0 : df.isEmpty
    · have hdf : df2 = df := by
        simp [calculate_technical_indicators, h0] at hdf2
        exact hdf2.symm
      subst hdf
      rw [DataFrame.getCol, hx] at hcol
      simp [List.find?] at hcol
    · have hdf : df2 = addIndicatorColumns sqrtQ df := by
        simp [calculate_technical_indicators, h0] at hdf2
        exact hdf2.symm
      rw [hdf] at hcol
      clear hdf hdf2
      have hlen : df.closeCol.length < 2 := hlt
      simp only [List.mem_cons, List.not_mem_nil, or_false] at hname
      rcases hname with rfl | rfl | rfl | rfl | rfl | rfl
      · rw [getCol_res_SMA20 sqrtQ df hx] at hcol
        injection hcol with hcol
        subst hcol
        revert v hv
        apply eq_nan_of_getD_nan
        intro i hi
        rw [sma_20_length] at hi
        simp only [sma_20]
        exact rollingMean_getD_nan 20 _ i (by omega)
      · rw [getCol_res_SMA50 sqrtQ df hx] at hcol
        injection hcol with hcol
        subst hcol
        revert v hv
        apply eq_nan_of_getD_nan
        intro i hi
        rw [sma_50_length] at hi
        simp only [sma_50]
        exact rollingMean_getD_nan 50 _ i (by omega)
      · rw [getCol_res_RSI sqrtQ df hx] at hcol
        injection hcol with hcol
        subst hcol
        revert v hv
        apply eq_nan_of_getD_nan
        intro i hi
        rw [rsiSeries_length] at hi
        exact rsiSeries_getD_nan _ i (by omega)
      · rw [getCol_res_BBMiddle sqrtQ df hx] at hcol
        injection hcol with hcol
        subst hcol
        revert v hv
        apply eq_nan_of_getD_nan
        intro i hi
        rw [bb_middle_length] at hi
        simp only [bb_middle]
        exact rollingMean_getD_nan 20 _ i (by omega)
      · rw [getCol_res_BBUpper sqrtQ df hx] at hcol
        injection hcol with hcol
        subst hcol
        revert v hv
        apply eq_nan_of_getD_nan
        intro i hi
        rw [bb_upper_length] at hi
        exact bb_upper_getD_nan sqrtQ _ i (by omega)
      · rw [getCol_res_BBLower sqrtQ df hx] at hcol
        injection hcol with hcol
        subst hcol
        revert v hv
        apply eq_nan_of_getD_nan
        intro i hi
        rw [bb_lower_length] at hi
        exact bb_lower_getD_nan sqrtQ _ i (by omega)

unseal Rat.add Rat.mul Rat.inv Rat.sub in
/-- Witness for C5 on the concrete one-bar frame. -/
theorem short_series_witness :
    oneBarFrame.nrows < 2 ∧ oneBarFrame.extra = [] ∧
    ∀ v ∈ sma_20 oneBarFrame.closeCol, v = FV.nan := by
  refine ⟨by decide, rfl, fun v hv => ?_⟩
  exact (short_series_all_absent (fun q => q) oneBarFrame).2.2 (by decide) rfl
    (addIndicatorColumns (fun q => q) oneBarFrame) (by decide) "SMA_20"
    (by decide) (sma_20 oneBarFrame.closeCol)
    (getCol_res_SMA20 (fun q => q) oneBarFrame rfl) v hv

/-- The main chart's numeric content does not depend on the theme. -/
theorem create_main_chart_theme_data (df : DataFrame) (ind : List String)
    (t1 t2 : String) :
    panelData (create_main_chart df ind t1) =
      panelData (create_main_chart df ind t2) := by
  unfold create_main_chart panelData
  by_cases h1 : "SMA/EMA" ∈ ind <;>
    by_cases h2 : "Bollinger Bands" ∈ ind ∧
      ((df.getCol "BB_Upper").isSome ∧ (df.getCol "BB_Lower").isSome) <;>
    simp [h1, h2, glyphData]

/-- The volume chart's numeric content does not depend on the theme
(only the per-bar up/down colors do). -/
theorem create_volume_chart_theme_data (df : DataFrame) (t1 t2 : String) :
    panelData (create_volume_chart df t1) =
      panelData (create_volume_chart df t2) := by
  unfold create_volume_chart panelData
  simp [glyphData]

/-- The oscillator sub-charts' numeric content does not depend on the
theme. -/
theorem create_technical_chart_theme_data (df : DataFrame) (ity : String)
    (t1 t2 : String) :
    panelData (create_technical_chart df ity t1) =
      panelData (create_technical_chart df ity t2) := by
  unfold create_technical_chart panelData
  by_cases h1 : ity = "RSI" ∧ (df.getCol "RSI").isSome <;>
    by_cases h2 : ity = "MACD" ∧ ((df.getCol "MACD").isSome ∧
      (df.getCol "MACD_Signal").isSome ∧
        (df.getCol "MACD_Histogram").isSome) <;>
    simp [h1, h2, glyphData]

/-- The whole dashboard's numeric content does not depend on the
theme. -/
theorem dashboardPanels_theme_data (df : DataFrame) (labels : List String)
    (t1 t2 : String) :
    (dashboardPanels df labels t1).map panelData =
      (dashboardPanels df labels t2).map panelData := by
  unfold dashboardPanels
  by_cases hr : "RSI" ∈ labels <;> by_cases hm : "MACD" ∈ labels <;>
    simp [hr, hm, create_main_chart_theme_data df labels t1 t2,
      create_volume_chart_theme_data df t1 t2,
      create_technical_chart_theme_data df "RSI" t1 t2,
      create_technical_chart_theme_data df "MACD" t1 t2]

/-- On every non-empty frame the stats update raises: the field at
app.py:651 carries the invalid literal spec `rsiFieldSpec`. -/
theorem update_stats_display_raises (df : DataFrame) (t : String)
    (h : df.isEmpty = false) :
    update_stats_display df t = Except.error "Invalid format specifier" := by
  have hspec : isFloatFormatSpec rsiFieldSpec = false := by decide
  simp [update_stats_display, h, pyFormatCheck, hspec]

unseal Rat.add Rat.mul Rat.inv Rat.sub in
/-- C6: code bug.  The statistics summary never exhibits the claimed
behavior: the replacement field at app.py:651 puts its conditional
expression in the format-spec slot, so `format` receives the literal
text `rsiFieldSpec`, which is not a valid format spec, and
`update_stats_display` raises ValueError there on every non-empty
frame — before the RSI classification at app.py:656–665 runs and
before the display is updated.  Concretely on the analyzed 3-bar
frame: the spec is rejected, the call returns the ValueError, the
percent change computed just before the crash (app.py:609–612) is
(102 − 101)/101 × 100 = 100/101, and the latest RSI value the dead
classification branch would have inspected is NaN. -/
theorem stats_display_always_raises :
    isFloatFormatSpec rsiFieldSpec = false ∧
    update_stats_display (addIndicatorColumns (fun q => q) threeBarFrame)
        "AAPL" = Except.error "Invalid format specifier" ∧
    priceChangePct threeBarFrame.closeCol = 100 / 101 ∧
    latestGet (addIndicatorColumns (fun q => q) threeBarFrame) "RSI" =
      some FV.nan := by
  refine ⟨by decide, ?_, by decide, by decide⟩
  exact update_stats_display_raises _ _ (by decide)

/-- C7 (amended): when the fetch returns zero rows or raises, the
handler terminates, surfaces the error status (red border, trailing
"No data found for …" / "Error: …" line), renders no new chart and
leaves the previously displayed chart and the cached data untouched —
it does not clear the prior chart, since the handler returns before
`create_dashboard` ever runs. -/
theorem analyze_failure_preserves_dashboard (sqrtQ : ℚ → ℚ) (ts : String)
    (s : AppState) (hticker : ¬ pyUpper (pyStrip s.tickerInput) = "") :
    (∀ df : DataFrame, df.isEmpty = true →
      (analyze_stock sqrtQ (Except.ok df) ts s).dashboardChildren =
          s.dashboardChildren ∧
        (analyze_stock sqrtQ (Except.ok df) ts s).currentData =
          s.currentData ∧
        (analyze_stock sqrtQ (Except.ok df) ts s).currentTicker =
          s.currentTicker ∧
        (analyze_stock sqrtQ (Except.ok df) ts s).statusLines.getLast? =
          some ("[" ++ ts ++ "] " ++
            ("No data found for " ++ pyUpper (pyStrip s.tickerInput))) ∧
        (analyze_stock sqrtQ (Except.ok df) ts s).statusBorder = "#dc3545") ∧
    (∀ e : String,
      (analyze_stock sqrtQ (Except.error e) ts s).dashboardChildren =
          s.dashboardChildren ∧
        (analyze_stock sqrtQ (Except.error e) ts s).currentData =
          s.currentData ∧
        (analyze_stock sqrtQ (Except.error e) ts s).currentTicker =
          s.currentTicker ∧
        (analyze_stock sqrtQ (Except.error e) ts s).statusLines.getLast? =
          some ("[" ++ ts ++ "] " ++ ("Error: " ++ e)) ∧
        (analyze_stock sqrtQ (Except.error e) ts s).statusBorder =
          "#dc3545") := by
  constructor
  · intro df hdf
    refine ⟨?_, ?_, ?_, ?_, ?_⟩ <;>
      simp [analyze_stock, hticker, hdf, update_status, List.getLast?_concat]
  · intro e
    refine ⟨?_, ?_, ?_, ?_, ?_⟩ <;>
      simp [analyze_stock, hticker, update_status, List.getLast?_concat]

/-- Witness for C7 on the concrete cached state and empty fetch. -/
theorem analyze_failure_witness :
    ¬ pyUpper (pyStrip sampleState.tickerInput) = "" ∧
    emptyFrame.isEmpty = true ∧
    (analyze_stock (fun q => q) (Except.ok emptyFrame) "12:00:01"
      sampleState).statusBorder = "#dc3545" :=
  ⟨by decide, by decide,
    ((analyze_failure_preserves_dashboard (fun q => q) "12:00:01" sampleState
      (by decide)).1 emptyFrame (by decide)).2.2.2.2⟩

/-- C7 counterexample: on an empty fetch the previously displayed
chart is NOT cleared — the handler returns before
`dashboard_container.children.clear()` (inside `create_dashboard`) is
reached, so the prior panel is still in the container. -/
theorem analyze_nodata_keeps_prior_chart :
    (analyze_stock (fun q => q) (Except.ok emptyFrame) "12:00:00"
      sampleState).dashboardChildren = [initialPanel] ∧
    ([initialPanel] : List Panel) ≠ [] := by
  constructor
  · rfl
  · decide

/-- C8: exporting with an empty cache writes nothing; otherwise the
file `{TICKER}_{YYYYMMDD_HHMMSS}.csv` receives the entire cached
extended table — every row and every column, indicator columns
included. -/
theorem export_behavior :
    (∀ t : String, ∀ now : Timestamp, export_to_csv none t now = none) ∧
    (∀ df : DataFrame, ∀ t : String, ∀ now : Timestamp,
      export_to_csv (some df) t now =
        some (t ++ "_" ++ (pad4 now.y ++ pad2 now.mo ++ pad2 now.d ++ "_" ++
          pad2 now.h ++ pad2 now.mi ++ pad2 now.sec) ++ ".csv", df)) :=
  ⟨fun _ _ => rfl, fun _ _ _ => rfl⟩

/-- C9: the drawn numeric series arrays are identical under any two
themes, both for one dashboard build over the same frame and
end-to-end across the analysis handler run on states differing only in
the active theme; only styling (resolved colors) differs.  The
indicator computation itself takes no theme input at all. -/
theorem theme_independence (df : DataFrame) (labels : List String)
    (t1 t2 : String) :
    (dashboardPanels df labels t1).map panelData =
      (dashboardPanels df labels t2).map panelData ∧
    ∀ sqrtQ : ℚ → ℚ, ∀ fetch : Except String DataFrame, ∀ ts : String,
      ∀ s : AppState,
        ((analyze_stock sqrtQ fetch ts
            { s with themeName := t1 }).dashboardChildren).map panelData =
        ((analyze_stock sqrtQ fetch ts
            { s with themeName := t2 }).dashboardChildren).map panelData := by
  refine ⟨dashboardPanels_theme_data df labels t1 t2, ?_⟩
  intro sqrtQ fetch ts s
  by_cases ht : pyUpper (pyStrip s.tickerInput) = ""
  · simp [analyze_stock, ht, update_status]
  · cases fetch with
    | error e => simp [analyze_stock, ht, update_status]
    | ok df' =>
      by_cases he : df'.isEmpty
      · simp [analyze_stock, ht, he, update_status]
      · cases hs : update_stats_display (addIndicatorColumns sqrtQ df')
            (pyUpper (pyStrip s.tickerInput)) with
        | error e =>
            simp [analyze_stock, ht, he, hs, update_status]
            exact dashboardPanels_theme_data _ _ t1 t2
        | ok u =>
            simp [analyze_stock, ht, he, hs, update_status]
            exact dashboardPanels_theme_data _ _ t1 t2

end FinDash
